import Mathlib

/-
Shallow embedding of the two source files of the repository
(model_artifact.py and app.py) over exact rational arithmetic.
Machine doubles are modelled by the rationals; every embedded constant is
the exact value of the decimal literal in the source.
-/

/-- Per-feature means of the trained StandardScaler, the tuple
FEATURE_MEANS of model_artifact.py, as exact rationals. -/
def FEATURE_MEANS : List ℚ :=
  [-1.44429466e-18, 2.54321451e-18, -2.25592546e-16, -4.85408596e-17,
   -1.42859580e-17, 3.89881064e-17, -6.02836031e-18, -1.78809958e-17,
   9.24348582e-17, 1.35176953e-17]

/-- Per-feature scales of the trained StandardScaler, the tuple
FEATURE_SCALES of model_artifact.py. -/
def FEATURE_SCALES : List ℚ :=
  [0.04756515, 0.04756515, 0.04756515, 0.04756515, 0.04756515,
   0.04756515, 0.04756515, 0.04756515, 0.04756515, 0.04756515]

/-- Coefficients of the trained LassoCV model, the tuple
MODEL_COEFFICIENTS of model_artifact.py. -/
def MODEL_COEFFICIENTS : List ℚ :=
  [-0.30892106, -11.22504613, 24.81684888, 15.27130382, -27.08540992,
   14.38623131, 0.0, 6.83504132, 31.86497214, 3.17904105]

/-- Intercept of the trained LassoCV model, MODEL_INTERCEPT of
model_artifact.py. -/
def MODEL_INTERCEPT : ℚ := 152.13348416289594

/-- State of an EmbeddedRegressionModel instance after a successful
__init__: the four parameter fields.  The Python object is never mutated
after construction, so a plain immutable structure is a faithful model. -/
structure EmbeddedRegressionModel where
  feature_means : List ℚ
  feature_scales : List ℚ
  coefficients : List ℚ
  intercept : ℚ
  deriving DecidableEq

/-- The ValueError raised by EmbeddedRegressionModel.__init__ when the
three parameter sequences do not share one length. -/
inductive InitError where
  | invalidParameters
  deriving DecidableEq

/-- The ValueError raised inside EmbeddedRegressionModel.predict when a
row has the wrong length; the payloads model the two numbers interpolated
into the message (expected and received feature counts). -/
inductive PredictError where
  | dimensionMismatch (expected actual : Nat)
  deriving DecidableEq

/-- EmbeddedRegressionModel.__init__: stores the four parameters and
raises ValueError unless the three sequences have equal lengths.  The
Python code first converts each entry with float, which is the identity
in this exact-arithmetic model. -/
def EmbeddedRegressionModel.init (feature_means feature_scales coefficients : List ℚ)
    (intercept : ℚ) : Except InitError EmbeddedRegressionModel :=
  if feature_means.length = feature_scales.length ∧
      feature_scales.length = coefficients.length then
    .ok ⟨feature_means, feature_scales, coefficients, intercept⟩
  else
    .error .invalidParameters

/-- The n_features_in_ property: the length of the coefficient tuple. -/
def EmbeddedRegressionModel.n_features_in_ (m : EmbeddedRegressionModel) : Nat :=
  m.coefficients.length

/-- EmbeddedRegressionModel._transform_row: standardizes a row by zipping
it with the means and scales (zip truncates to the shortest input, as in
Python) and yielding (value - mean) / scale for each triple. -/
def EmbeddedRegressionModel._transform_row (m : EmbeddedRegressionModel)
    (row : List ℚ) : List ℚ :=
  (row.zip (m.feature_means.zip m.feature_scales)).map
    fun p => (p.1 - p.2.1) / p.2.2

/-- The per-row body of EmbeddedRegressionModel.predict: starting from the
intercept, add coefficient * value for each pair of zip(transformed,
coefficients), left to right. -/
def EmbeddedRegressionModel.predictRow (m : EmbeddedRegressionModel)
    (row : List ℚ) : ℚ :=
  ((m._transform_row row).zip m.coefficients).foldl
    (fun acc p => acc + p.2 * p.1) m.intercept

/-- EmbeddedRegressionModel.predict: takes a sequence of rows; for each
row, first raises ValueError when the row length differs from
n_features_in_, otherwise appends the accumulated prediction.  The
exception aborts the whole call, which the Except monad models: the first
offending row (in input order) determines the error and no list of
predictions is produced. -/
def EmbeddedRegressionModel.predict (m : EmbeddedRegressionModel) :
    List (List ℚ) → Except PredictError (List ℚ)
  | [] => .ok []
  | row :: rest =>
    if row.length ≠ m.n_features_in_ then
      .error (.dimensionMismatch m.n_features_in_ row.length)
    else
      match m.predict rest with
      | .ok ps => .ok (m.predictRow row :: ps)
      | .error e => .error e

/-- The model object built by the first load_model of model_artifact.py
(lines 105-114) from the four embedded constant tables. -/
def embeddedModel : EmbeddedRegressionModel :=
  ⟨FEATURE_MEANS, FEATURE_SCALES, MODEL_COEFFICIENTS, MODEL_INTERCEPT⟩

/-- The first load_model of model_artifact.py: constructs the embedded
model from the constant tables (construction may in general fail, hence
the Except). -/
def load_model_embedded : Except InitError EmbeddedRegressionModel :=
  EmbeddedRegressionModel.init FEATURE_MEANS FEATURE_SCALES MODEL_COEFFICIENTS
    MODEL_INTERCEPT

example : load_model_embedded = .ok embeddedModel := rfl

example : embeddedModel.n_features_in_ = 10 := rfl

/-- FEATURE_LABELS of app.py: the fixed ordered list of recognized form
fields with their display labels. -/
def FEATURE_LABELS : List (String × String) :=
  [("age", "Edad"),
   ("sex", "Sexo (1 = Hombre, 0 = Mujer)"),
   ("bmi", "Indice de Masa Corporal (IMC)"),
   ("bp", "Presion Arterial"),
   ("s1", "Colesterol Total"),
   ("s2", "Colesterol LDL"),
   ("s3", "Colesterol HDL"),
   ("s4", "Trigliceridos"),
   ("s5", "Nivel de Glucosa"),
   ("s6", "Nivel de Insulina")]

/-- Numeric value of a list of decimal digit characters, most significant
first. -/
def digitsVal (ds : List Char) : Nat :=
  ds.foldl (fun a c => a * 10 + (c.toNat - 48)) 0

/-- Ten to an integer power, as a rational. -/
def pow10 (e : Int) : ℚ :=
  if 0 ≤ e then (10 : ℚ) ^ e.toNat else 1 / (10 : ℚ) ^ (-e).toNat

/-- Mantissa of a decimal float literal: digits with an optional decimal
point, at least one digit overall.  Returns the value and the unconsumed
suffix. -/
def parseMantissa (cs : List Char) : Option (ℚ × List Char) :=
  let ip := cs.takeWhile Char.isDigit
  let r1 := cs.dropWhile Char.isDigit
  match r1 with
  | '.' :: r2 =>
    let fp := r2.takeWhile Char.isDigit
    let r3 := r2.dropWhile Char.isDigit
    if ip.isEmpty && fp.isEmpty then none
    else some ((digitsVal ip : ℚ) + (digitsVal fp : ℚ) / (10 : ℚ) ^ fp.length, r3)
  | _ =>
    if ip.isEmpty then none else some ((digitsVal ip : ℚ), r1)

/-- Exponent part of a decimal float literal (after the letter e): an
optional sign followed by one or more digits, consuming the whole rest of
the string. -/
def parseExponent (cs : List Char) : Option Int :=
  let sp : Int × List Char :=
    match cs with
    | '+' :: r => (1, r)
    | '-' :: r => (-1, r)
    | _ => (1, cs)
  let ds := sp.2.takeWhile Char.isDigit
  let rest := sp.2.dropWhile Char.isDigit
  if ds.isEmpty || !rest.isEmpty then none else some (sp.1 * digitsVal ds)

/-- Model of the CPython builtin float applied to a string, as used by
_parse_features of app.py: accepts an optional sign, a digit string with
an optional decimal point, and an optional e/E exponent, returning the
exact rational value; every other string is rejected.  (The builtin also
accepts surrounding whitespace, underscores and the inf/nan words; none
of these are exercised by the claims.) -/
def pyFloat? (s : String) : Option ℚ :=
  let cs := s.toList
  let sp : ℚ × List Char :=
    match cs with
    | '+' :: r => (1, r)
    | '-' :: r => (-1, r)
    | _ => (1, cs)
  match parseMantissa sp.2 with
  | none => none
  | some mr =>
    match mr.2 with
    | [] => some (sp.1 * mr.1)
    | 'e' :: r => (parseExponent r).map fun e => sp.1 * mr.1 * pow10 e
    | 'E' :: r => (parseExponent r).map fun e => sp.1 * mr.1 * pow10 e
    | _ => none

example : pyFloat? "abc" = none := rfl

example : pyFloat? "" = none := rfl

example : (pyFloat? "1").isSome = true := rfl

example : (pyFloat? "-3.25e2").isSome = true := rfl

/-- The ValueError raised by _parse_features of app.py, one constructor
per distinct message template: a mandatory field that is absent or empty,
a field whose value float rejects, and the defensive final length check
with the two interpolated counts. -/
inductive ParseError where
  | missingField (name : String)
  | notNumeric (name : String)
  | featureCountMismatch (expected actual : Nat)
  deriving DecidableEq

/-- The collection loop of _parse_features: for each recognized field in
the fixed order, look the field up in the form data (a werkzeug
MultiDict, modelled as an association list with first-match lookup),
raise for an absent or empty value, raise when float rejects the value,
and otherwise append the parsed number.  The first failure in field order
aborts the whole call. -/
def collectFeatures (form : List (String × String)) :
    List (String × String) → Except ParseError (List ℚ)
  | [] => .ok []
  | (field, _) :: rest =>
    match form.lookup field with
    | none => .error (.missingField field)
    | some raw =>
      if raw = "" then .error (.missingField field)
      else
        match pyFloat? raw with
        | none => .error (.notNumeric field)
        | some x => (collectFeatures form rest).map fun xs => x :: xs

/-- _parse_features of app.py: run the collection loop over
FEATURE_LABELS, then raise when the number of collected values differs
from the module-level expected_features (passed here as a parameter). -/
def _parse_features (form : List (String × String)) (expected : Nat) :
    Except ParseError (List ℚ) :=
  match collectFeatures form FEATURE_LABELS with
  | .error e => .error e
  | .ok features =>
    if features.length ≠ expected then
      .error (.featureCountMismatch expected features.length)
    else
      .ok features

/-- Observer for the defensive final branch of _parse_features: true
exactly when the result is the feature-count-mismatch error. -/
def is_feature_count_mismatch : Except ParseError (List ℚ) → Bool
  | .error (.featureCountMismatch _ _) => true
  | _ => false

/-- A form field parses cleanly: it is present, non-empty and float
accepts its value. -/
def field_ok (form : List (String × String)) (field : String) : Bool :=
  match form.lookup field with
  | none => false
  | some raw => decide (raw ≠ "") && (pyFloat? raw).isSome

example : _parse_features [] 10 = .error (.missingField "age") := rfl

/-- The possible values of the module-level variable model of app.py: the
embedded-constant artifact (an EmbeddedRegressionModel), the sklearn
pipeline unpickled from the MODEL_BASE64 blob (the second load_model of
model_artifact.py, which shadows the first), or the sklearn pipeline
unpickled from the file lasso_cv_diabetes_model.pkl. -/
inductive LoadedModel where
  | embeddedConstants (m : EmbeddedRegressionModel)
  | base64Pipeline
  | filePipeline
  deriving DecidableEq

/-- Load-time failures of the file-based load_model of app.py: the
FileNotFoundError raised when MODEL_PATH does not exist, and any
exception raised by pickle.load on unreadable content. -/
inductive LoadError where
  | fileNotFound
  | unpicklingError
  deriving DecidableEq

/-- State of the file lasso_cv_diabetes_model.pkl next to app.py: absent,
or present with a flag telling whether pickle.load succeeds on it. -/
inductive FileState where
  | absent
  | present (unpicklable : Bool)
  deriving DecidableEq

/-- The load_model function defined in app.py (lines 51-60): raises
FileNotFoundError when the file is missing, otherwise unpickles it. -/
def load_model_from_path : FileState → Except LoadError LoadedModel
  | .absent => .error .fileNotFound
  | .present true => .ok .filePipeline
  | .present false => .error .unpicklingError

/-- The module-level state of app.py after import: the model singleton,
the remembered load error, and expected_features. -/
structure AppInit where
  model : Option LoadedModel
  model_load_error : Option LoadError
  expected_features : Nat
  deriving DecidableEq

/-- The module-level initialization sequence of app.py.  The first
try/except (lines 40-50) binds model from model_artifact.load_model —
whose outcome is a parameter here, since that name is itself shadowed
inside model_artifact.py by a base64-pickle loader — and sets
expected_features, which is 10 on every path (the unpickled pipeline
declares n_features_in_ = 10, and the fallback len(FEATURE_LABELS) is
also 10).  The second try/except (lines 63-68) then unconditionally
rebinds model and model_load_error from the file-based load_model, so the
first outcome never survives into the served state. -/
def app_startup (firstLoad : Except LoadError LoadedModel) (fs : FileState) :
    AppInit :=
  let first : AppInit :=
    match firstLoad with
    | .ok m => ⟨some m, none, 10⟩
    | .error e => ⟨none, some e, 10⟩
  match load_model_from_path fs with
  | .ok m => { first with model := some m, model_load_error := none }
  | .error e => { first with model := none, model_load_error := some e }

/-- The error messages the index view of app.py can render, one
constructor per produced message shape: the remembered module-level load
error shown as-is, the fixed model-unavailable sentence of lines 100-103,
the str of a ValueError from _parse_features or predict, and the prefixed
catch-all for unexpected exceptions. -/
inductive DisplayMessage where
  | loadError (e : LoadError)
  | modelUnavailable
  | parseFailure (e : ParseError)
  | predictValueError (e : PredictError)
  deriving DecidableEq

/-- What the index view hands to render_template: the optional numeric
prediction and the optional error message. -/
structure Response where
  prediction : Option ℚ
  errorMessage : Option DisplayMessage
  deriving DecidableEq

/-- HTTP methods accepted by the single route of app.py. -/
inductive HttpMethod where
  | get
  | post
  deriving DecidableEq

/-- The index view of app.py.  The model singleton is passed as an
optional single-row prediction function (model.predict([features])[0] in
the source).  On POST with model None the view reports the fixed
model-unavailable message; the source text of that branch (lines 100-103)
is a syntactically invalid merge of two assignments to error_message, and
is modelled here by its inner complete statement, the fixed message both
merge parents assign.  Otherwise the view parses the form, predicts, and
maps each ValueError to its message; the view never rebinds the
module-level model, so a startup failure is never retried. -/
def index (model : Option (List ℚ → Except PredictError ℚ))
    (model_load_error : Option LoadError) (expected : Nat)
    (method : HttpMethod) (form : List (String × String)) : Response :=
  let errorMessage := model_load_error.map DisplayMessage.loadError
  match method with
  | .get => ⟨none, errorMessage⟩
  | .post =>
    match model with
    | none => ⟨none, some .modelUnavailable⟩
    | some mpredict =>
      match _parse_features form expected with
      | .error e => ⟨none, some (.parseFailure e)⟩
      | .ok features =>
        match mpredict features with
        | .ok value => ⟨some value, errorMessage⟩
        | .error e => ⟨none, some (.predictValueError e)⟩



theorem predict_cons (m : EmbeddedRegressionModel) (row : List ℚ)
    (rows : List (List ℚ)) :
    m.predict (row :: rows) =
      if row.length ≠ m.n_features_in_ then
        .error (.dimensionMismatch m.n_features_in_ row.length)
      else
        match m.predict rows with
        | .ok ps => .ok (m.predictRow row :: ps)
        | .error e => .error e := rfl

theorem foldl_zip_transform_sum (n : Nat) :
    ∀ (row means scales coeffs : List ℚ) (a : ℚ),
      row.length = n → means.length = n → scales.length = n →
      coeffs.length = n →
      (((row.zip (means.zip scales)).map (fun p => (p.1 - p.2.1) / p.2.2)).zip
            coeffs).foldl (fun acc p => acc + p.2 * p.1) a
        = a + ∑ i ∈ Finset.range n,
            coeffs.getD i 0 *
              ((row.getD i 0 - means.getD i 0) / scales.getD i 0) := by
  induction n with
  | zero =>
    intro row means scales coeffs a hr hm hs hc
    rw [List.length_eq_zero] at hr hm hs hc
    subst hr; subst hm; subst hs; subst hc
    simp
  | succ k ih =>
    intro row means scales coeffs a hr hm hs hc
    cases row with
    | nil => simp at hr
    | cons v row =>
      cases means with
      | nil => simp at hm
      | cons mu means =>
        cases scales with
        | nil => simp at hs
        | cons sc scales =>
          cases coeffs with
          | nil => simp at hc
          | cons c coeffs =>
            simp only [List.zip_cons_cons, List.map_cons, List.foldl_cons]
            rw [ih row means scales coeffs (a + c * ((v - mu) / sc))
              (by simpa using hr) (by simpa using hm) (by simpa using hs)
              (by simpa using hc)]
            rw [Finset.sum_range_succ']
            simp only [List.getD_cons_succ, List.getD_cons_zero]
            ring

/-- C1: for every row of 10 numbers (and any model whose three parameter
tables have 10 entries), predict returns the intercept plus the sum over
feature index i of coefficient i times the standardized value
(row i - mean i) / scale i, with no clamping or post-processing; the code
accumulates that sum in increasing index order, which is
indistinguishable from the mathematical sum in this exact-arithmetic
model. -/
theorem predict_is_standardized_linear_combination
    (m : EmbeddedRegressionModel) (row : List ℚ)
    (hm : m.feature_means.length = 10) (hs : m.feature_scales.length = 10)
    (hc : m.coefficients.length = 10) (hr : row.length = 10) :
    m.predict [row] = .ok [m.intercept + ∑ i ∈ Finset.range 10,
      m.coefficients.getD i 0 *
        ((row.getD i 0 - m.feature_means.getD i 0) /
          m.feature_scales.getD i 0)] := by
  have hn : m.n_features_in_ = 10 := hc
  have hrow : ¬(row.length ≠ m.n_features_in_) := by rw [hr, hn]; simp
  rw [predict_cons, if_neg hrow]
  have hnil : m.predict [] = .ok [] := rfl
  rw [hnil]
  have key := foldl_zip_transform_sum 10 row m.feature_means m.feature_scales
    m.coefficients m.intercept hr hm hs hc
  simp only [EmbeddedRegressionModel.predictRow,
    EmbeddedRegressionModel._transform_row]
  rw [key]

/-- Witness for C1 at the embedded parameter tables and the all-ones
row. -/
theorem predict_is_standardized_linear_combination_witness :
    embeddedModel.predict [[1, 1, 1, 1, 1, 1, 1, 1, 1, 1]] =
      .ok [embeddedModel.intercept + ∑ i ∈ Finset.range 10,
        embeddedModel.coefficients.getD i 0 *
          ((([1, 1, 1, 1, 1, 1, 1, 1, 1, 1] : List ℚ).getD i 0
            - embeddedModel.feature_means.getD i 0) /
              embeddedModel.feature_scales.getD i 0)] :=
  predict_is_standardized_linear_combination embeddedModel
    [1, 1, 1, 1, 1, 1, 1, 1, 1, 1] rfl rfl rfl rfl

/-- C3: a single-row predict call fails exactly when the length of the
row differs from the declared feature count n_features_in_, the failure
is the dimension-mismatch ValueError carrying the expected and received
counts, and a failing call produces no prediction value (the Except
result carries either an error or a value, never both). -/
theorem predict_single_row_dimension_check (m : EmbeddedRegressionModel)
    (row : List ℚ) :
    ((∃ e, m.predict [row] = .error e) ↔ row.length ≠ m.n_features_in_) ∧
    (row.length ≠ m.n_features_in_ →
      m.predict [row] = .error (.dimensionMismatch m.n_features_in_ row.length)) := by
  by_cases h : row.length ≠ m.n_features_in_
  · refine ⟨⟨fun _ => h,
      fun _ => ⟨.dimensionMismatch m.n_features_in_ row.length, ?_⟩⟩,
      fun _ => ?_⟩ <;>
      rw [predict_cons, if_pos h]
  · have hok : m.predict [row] = .ok [m.predictRow row] := by
      rw [predict_cons, if_neg h]; rfl
    refine ⟨⟨fun he => ?_, fun hne => absurd hne h⟩, fun hne => absurd hne h⟩
    obtain ⟨e, he⟩ := he
    rw [hok] at he
    exact absurd he (by simp)

/-- Witness for C3 at the embedded model and a row of length 3. -/
theorem predict_single_row_dimension_check_witness :
    embeddedModel.predict [[1, 2, 3]] = .error (.dimensionMismatch 10 3) :=
  (predict_single_row_dimension_check embeddedModel [1, 2, 3]).2 (by decide)

/-- C7: construction via __init__ fails with the invalid-parameters
ValueError exactly when the means, scales and coefficients sequences do
not all have one length, and otherwise succeeds with an artifact whose
n_features_in_ equals that common length. -/
theorem init_checks_equal_lengths
    (feature_means feature_scales coefficients : List ℚ) (intercept : ℚ) :
    (EmbeddedRegressionModel.init feature_means feature_scales coefficients
        intercept = .error .invalidParameters
      ↔ ¬(feature_means.length = feature_scales.length ∧
          feature_scales.length = coefficients.length)) ∧
    ((feature_means.length = feature_scales.length ∧
        feature_scales.length = coefficients.length) →
      ∃ m, EmbeddedRegressionModel.init feature_means feature_scales
          coefficients intercept = .ok m ∧
        m.n_features_in_ = coefficients.length ∧
        m.n_features_in_ = feature_means.length) := by
  unfold EmbeddedRegressionModel.init
  by_cases h : feature_means.length = feature_scales.length ∧
      feature_scales.length = coefficients.length
  · rw [if_pos h]
    refine ⟨⟨fun he => absurd he (by simp), fun hn => absurd h hn⟩,
      fun _ => ⟨_, rfl, rfl, ?_⟩⟩
    simp only [EmbeddedRegressionModel.n_features_in_]
    rw [← h.2, ← h.1]
  · rw [if_neg h]
    exact ⟨⟨fun _ => h, fun _ => rfl⟩, fun hh => absurd hh h⟩

/-- Witness for C7 at three singleton parameter lists. -/
theorem init_checks_equal_lengths_witness :
    ∃ m, EmbeddedRegressionModel.init [0] [1] [2] 5 = .ok m ∧
      m.n_features_in_ = 1 ∧ m.n_features_in_ = 1 :=
  (init_checks_equal_lengths [0] [1] [2] 5).2 (by simp)

/-- C9: at the embedded parameter set, predict on the all-zero row of
length 10 succeeds and yields a value within 1e-6 of the embedded
intercept 152.13348416289594. -/
theorem predict_zero_row_near_intercept :
    ∃ p, embeddedModel.predict [[0, 0, 0, 0, 0, 0, 0, 0, 0, 0]] = .ok [p] ∧
      |p - MODEL_INTERCEPT| ≤ 1 / 1000000 := by
  refine ⟨embeddedModel.predictRow [0, 0, 0, 0, 0, 0, 0, 0, 0, 0], rfl, ?_⟩
  simp only [EmbeddedRegressionModel.predictRow,
    EmbeddedRegressionModel._transform_row, embeddedModel, FEATURE_MEANS,
    FEATURE_SCALES, MODEL_COEFFICIENTS, MODEL_INTERCEPT, List.zip_cons_cons,
    List.map_cons, List.foldl_cons, List.zip_nil_left, List.zip_nil_right,
    List.map_nil, List.foldl_nil]
  rw [abs_le]
  constructor <;> norm_num

/-- C10: predict is batch-shaped: on a sequence of rows that all have the
declared feature count it returns one prediction per row in input order;
on the empty sequence it returns the empty list. -/
theorem predict_batch_maps_rows (m : EmbeddedRegressionModel)
    (rows : List (List ℚ))
    (h : ∀ row ∈ rows, row.length = m.n_features_in_) :
    m.predict rows = .ok (rows.map m.predictRow) := by
  induction rows with
  | nil => rfl
  | cons row rest ih =>
    have hrow : ¬(row.length ≠ m.n_features_in_) := by
      simp [h row (by simp)]
    rw [List.map_cons, predict_cons, if_neg hrow,
      ih (fun r hr => h r (by simp [hr]))]

/-- Witness for C10 at the embedded model and a two-row batch. -/
theorem predict_batch_maps_rows_witness :
    embeddedModel.predict
        [[1, 1, 1, 1, 1, 1, 1, 1, 1, 1], [2, 2, 2, 2, 2, 2, 2, 2, 2, 2]] =
      .ok [embeddedModel.predictRow [1, 1, 1, 1, 1, 1, 1, 1, 1, 1],
        embeddedModel.predictRow [2, 2, 2, 2, 2, 2, 2, 2, 2, 2]] :=
  predict_batch_maps_rows embeddedModel
    [[1, 1, 1, 1, 1, 1, 1, 1, 1, 1], [2, 2, 2, 2, 2, 2, 2, 2, 2, 2]]
    (by decide)

theorem collectFeatures_cons (form : List (String × String))
    (field label : String) (rest : List (String × String)) :
    collectFeatures form ((field, label) :: rest) =
      match form.lookup field with
      | none => .error (.missingField field)
      | some raw =>
        if raw = "" then .error (.missingField field)
        else
          match pyFloat? raw with
          | none => .error (.notNumeric field)
          | some x => (collectFeatures form rest).map fun xs => x :: xs := rfl

theorem collectFeatures_head_missing (form : List (String × String))
    (field label : String) (rest : List (String × String))
    (h : form.lookup field = none ∨ form.lookup field = some "") :
    collectFeatures form ((field, label) :: rest) =
      .error (.missingField field) := by
  rcases h with h | h <;> simp [collectFeatures_cons, h]

theorem collectFeatures_head_not_numeric (form : List (String × String))
    (field label : String) (rest : List (String × String)) (raw : String)
    (hlk : form.lookup field = some raw) (hne : raw ≠ "")
    (hnum : pyFloat? raw = none) :
    collectFeatures form ((field, label) :: rest) =
      .error (.notNumeric field) := by
  simp [collectFeatures_cons, hlk, hne, hnum]

theorem collectFeatures_append_error (form : List (String × String))
    (e : ParseError) :
    ∀ (pre rest : List (String × String)),
      (∀ p ∈ pre, field_ok form p.1 = true) →
      collectFeatures form rest = .error e →
      collectFeatures form (pre ++ rest) = .error e := by
  intro pre
  induction pre with
  | nil => intro rest _ h; simpa using h
  | cons p pre ih =>
    intro rest hok herr
    obtain ⟨field, label⟩ := p
    have hf : field_ok form field = true := hok (field, label) (by simp)
    rw [field_ok] at hf
    cases hlk : form.lookup field with
    | none => rw [hlk] at hf; exact absurd hf (by simp)
    | some raw =>
      rw [hlk] at hf
      have hne : raw ≠ "" :=
        of_decide_eq_true ((Bool.and_eq_true _ _).mp hf).1
      have hsome : (pyFloat? raw).isSome = true :=
        ((Bool.and_eq_true _ _).mp hf).2
      obtain ⟨x, hx⟩ := Option.isSome_iff_exists.mp hsome
      show collectFeatures form ((field, label) :: (pre ++ rest)) = .error e
      simp [collectFeatures_cons, hlk, hne, hx,
        ih rest (fun q hq => hok q (by simp [hq])) herr, Except.map]

theorem collectFeatures_ok_length (form : List (String × String)) :
    ∀ (l : List (String × String)) (v : List ℚ),
      collectFeatures form l = .ok v → v.length = l.length := by
  intro l
  induction l with
  | nil =>
    intro v h
    simp only [collectFeatures] at h
    cases h
    rfl
  | cons p rest ih =>
    intro v h
    obtain ⟨field, label⟩ := p
    cases hlk : form.lookup field with
    | none => simp [collectFeatures_cons, hlk] at h
    | some raw =>
      by_cases hne : raw = ""
      · simp [collectFeatures_cons, hlk, hne] at h
      · cases hpf : pyFloat? raw with
        | none => simp [collectFeatures_cons, hlk, hne, hpf] at h
        | some x =>
          cases hc : collectFeatures form rest with
          | error e =>
            simp [collectFeatures_cons, hlk, hne, hpf, hc, Except.map] at h
          | ok xs =>
            simp only [collectFeatures_cons, hlk, hne, hpf, hc, Except.map,
              if_false, Except.ok.injEq] at h
            subst h
            simp [ih xs hc]

/-- C5 counterexample: with the empty form, the recognized field bmi is
absent, yet _parse_features does not fail with the missing-field error
naming bmi — it names age, the earlier field in the fixed order — so
a missing field is not reported independently of the state of the other
fields. -/
theorem parse_missing_field_counterexample :
    List.lookup "bmi" ([] : List (String × String)) = none ∧
    ("bmi", "Indice de Masa Corporal (IMC)") ∈ FEATURE_LABELS ∧
    _parse_features [] 10 = .error (.missingField "age") ∧
    ParseError.missingField "age" ≠ ParseError.missingField "bmi" :=
  ⟨rfl, by decide, rfl, by decide⟩

/-- C5 as amended: _parse_features fails with the missing-field error
naming field f whenever the value of f is absent or empty and every field
preceding f in the fixed order parses cleanly; the validity of the fields
after f is irrelevant. -/
theorem parse_missing_field_first_clean_prefix
    (form : List (String × String)) (pre post : List (String × String))
    (field label : String) (expected : Nat)
    (hsplit : FEATURE_LABELS = pre ++ (field, label) :: post)
    (hpre : ∀ p ∈ pre, field_ok form p.1 = true)
    (hmiss : form.lookup field = none ∨ form.lookup field = some "") :
    _parse_features form expected = .error (.missingField field) := by
  have hcol : collectFeatures form FEATURE_LABELS =
      .error (.missingField field) := by
    rw [hsplit]
    exact collectFeatures_append_error form _ pre _ hpre
      (collectFeatures_head_missing form field label post hmiss)
  simp [_parse_features, hcol]

/-- Witness for the amended C5: age and sex are valid, bmi is absent, the
later fields are also absent, and the reported error names bmi. -/
theorem parse_missing_field_first_clean_prefix_witness :
    _parse_features [("age", "1"), ("sex", "0")] 10 =
      .error (.missingField "bmi") :=
  parse_missing_field_first_clean_prefix [("age", "1"), ("sex", "0")]
    [("age", "Edad"), ("sex", "Sexo (1 = Hombre, 0 = Mujer)")]
    [("bp", "Presion Arterial"),
     ("s1", "Colesterol Total"),
     ("s2", "Colesterol LDL"),
     ("s3", "Colesterol HDL"),
     ("s4", "Trigliceridos"),
     ("s5", "Nivel de Glucosa"),
     ("s6", "Nivel de Insulina")]
    "bmi" "Indice de Masa Corporal (IMC)" 10 rfl (by decide) (Or.inl rfl)

/-- C6 counterexample: the recognized field bmi is present with the
non-numeric value abc, yet _parse_features does not fail with the
not-numeric error naming bmi — it names the earlier absent field age —
so a non-numeric field is not reported independently of its position in
the fixed order. -/
theorem parse_not_numeric_counterexample :
    List.lookup "bmi" [("bmi", "abc")] = some "abc" ∧
    pyFloat? "abc" = none ∧
    _parse_features [("bmi", "abc")] 10 = .error (.missingField "age") ∧
    ParseError.missingField "age" ≠ ParseError.notNumeric "bmi" :=
  ⟨rfl, rfl, rfl, by decide⟩

/-- C6 as amended: _parse_features fails with the not-numeric error
naming field f whenever the value of f is present, non-empty and rejected
by float, and every field preceding f in the fixed order parses cleanly;
the validity of the fields after f is irrelevant. -/
theorem parse_not_numeric_first_clean_prefix
    (form : List (String × String)) (pre post : List (String × String))
    (field label : String) (expected : Nat) (raw : String)
    (hsplit : FEATURE_LABELS = pre ++ (field, label) :: post)
    (hpre : ∀ p ∈ pre, field_ok form p.1 = true)
    (hlk : form.lookup field = some raw) (hne : raw ≠ "")
    (hnum : pyFloat? raw = none) :
    _parse_features form expected = .error (.notNumeric field) := by
  have hcol : collectFeatures form FEATURE_LABELS =
      .error (.notNumeric field) := by
    rw [hsplit]
    exact collectFeatures_append_error form _ pre _ hpre
      (collectFeatures_head_not_numeric form field label post raw hlk hne hnum)
  simp [_parse_features, hcol]

/-- Witness for the amended C6: age and sex are valid, bmi holds abc, and
the reported error names bmi. -/
theorem parse_not_numeric_first_clean_prefix_witness :
    _parse_features [("age", "1"), ("sex", "0"), ("bmi", "abc")] 10 =
      .error (.notNumeric "bmi") :=
  parse_not_numeric_first_clean_prefix
    [("age", "1"), ("sex", "0"), ("bmi", "abc")]
    [("age", "Edad"), ("sex", "Sexo (1 = Hombre, 0 = Mujer)")]
    [("bp", "Presion Arterial"),
     ("s1", "Colesterol Total"),
     ("s2", "Colesterol LDL"),
     ("s3", "Colesterol HDL"),
     ("s4", "Trigliceridos"),
     ("s5", "Nivel de Glucosa"),
     ("s6", "Nivel de Insulina")]
    "bmi" "Indice de Masa Corporal (IMC)" 10 "abc" rfl (by decide) rfl
    (by decide) rfl

theorem collectFeatures_error_not_mismatch (form : List (String × String)) :
    ∀ (l : List (String × String)) (e : ParseError) (x y : Nat),
      collectFeatures form l = .error e → e ≠ .featureCountMismatch x y := by
  intro l
  induction l with
  | nil => intro e x y h; simp [collectFeatures] at h
  | cons p rest ih =>
    intro e x y h
    obtain ⟨field, label⟩ := p
    cases hlk : form.lookup field with
    | none =>
      simp [collectFeatures_cons, hlk] at h
      simp [← h]
    | some raw =>
      by_cases hne : raw = ""
      · simp [collectFeatures_cons, hlk, hne] at h
        simp [← h]
      · cases hpf : pyFloat? raw with
        | none =>
          simp [collectFeatures_cons, hlk, hne, hpf] at h
          simp [← h]
        | some v =>
          cases hc : collectFeatures form rest with
          | error err =>
            simp [collectFeatures_cons, hlk, hne, hpf, hc, Except.map] at h
            subst h
            exact ih err x y hc
          | ok xs =>
            simp [collectFeatures_cons, hlk, hne, hpf, hc, Except.map] at h

/-- C8: when the declared feature count is 10, the defensive final check
of _parse_features never fires: on any form the collection loop either
aborts with a missing-field or not-numeric error or yields exactly one
entry per recognized field, ten in total. -/
theorem parse_feature_count_mismatch_unreachable
    (form : List (String × String)) :
    is_feature_count_mismatch (_parse_features form 10) = false := by
  unfold _parse_features
  cases hc : collectFeatures form FEATURE_LABELS with
  | error e =>
    have hnot := collectFeatures_error_not_mismatch form FEATURE_LABELS e
    cases e with
    | missingField f => simp [is_feature_count_mismatch]
    | notNumeric f => simp [is_feature_count_mismatch]
    | featureCountMismatch x y => exact absurd rfl (hnot x y hc)
  | ok v =>
    have hlen : v.length = FEATURE_LABELS.length :=
      collectFeatures_ok_length form FEATURE_LABELS v hc
    simp [is_feature_count_mismatch, hlen, FEATURE_LABELS]

/-- C2 counterexample: even when the first initialization yields the
embedded-constant artifact, with no pickle file on disk the served model
is None and a load-time I/O failure (file not found) is remembered; and
the served state differs between an absent and a present file, so the
production loading path does depend on the filesystem. -/
theorem serving_model_counterexample :
    app_startup (.ok (.embeddedConstants embeddedModel)) .absent =
      ⟨none, some .fileNotFound, 10⟩ ∧
    (app_startup (.ok (.embeddedConstants embeddedModel)) .absent).model ≠
      (app_startup (.ok (.embeddedConstants embeddedModel))
        (.present true)).model := by
  refine ⟨rfl, ?_⟩
  simp [app_startup, load_model_from_path]

/-- C2 as amended: the second, file-based initialization overrides the
first, so the served model singleton and the remembered load error are
exactly the outcome of deserializing lasso_cv_diabetes_model.pkl,
whatever the embedded-constant path produced. -/
theorem serving_model_is_file_load (firstLoad : Except LoadError LoadedModel)
    (fs : FileState) :
    (app_startup firstLoad fs).model = (load_model_from_path fs).toOption ∧
    (app_startup firstLoad fs).model_load_error =
      (match load_model_from_path fs with
       | .ok _ => none
       | .error e => some e) := by
  cases fs with
  | absent => exact ⟨rfl, rfl⟩
  | present b => cases b <;> exact ⟨rfl, rfl⟩

/-- C4: with the model singleton None (a remembered startup load
failure), every POST request short-circuits to the fixed
model-unavailable outcome with no numeric prediction, for any form data;
the handler never rebinds the singleton, so the failed load is not
retried. -/
theorem post_after_load_failure_model_unavailable
    (model_load_error : Option LoadError) (expected : Nat)
    (form : List (String × String)) :
    index none model_load_error expected .post form =
      ⟨none, some .modelUnavailable⟩ := rfl
